import Mathlib

/-!
# RupAI insight-orchestration engine: a verification development

Shallow embedding of the `python-agents` package of the RupAI repository:
the three financial analyzer agents (`agents/debt_analyzer.py`,
`agents/savings_strategy.py`, `agents/budget_optimizer.py`), the data-store
adapter (`database/supabase_client.py`, modelled as a pure state
transformer over an in-memory table state), and the orchestrator
(`agents/orchestrator.py`).

Python floats are modelled as rationals (`ℚ`); Python dicts with fixed
literal keys become structures, and the heterogeneous `metrics` dicts
become association lists.  The large-language-model call
(`BaseFinancialAgent.generate_response`) is an external collaborator: its
returned narrative string is passed in as an explicit argument, and a
failing collaborator is an `Except.error` outcome.
-/

namespace RupAI

/-- A row of the `financial_data` table as consumed by the agents:
`data_type ∈ {income, expense, debt, savings}`, `category`, `amount`, and
the `metadata.interest_rate` entry (`none` models an absent key; the code
reads it with `metadata.get("interest_rate", ...)`). -/
structure FinancialRecord where
  data_type : String
  category : String
  amount : ℚ
  interest_rate : Option ℚ
deriving DecidableEq

/-- A recommendation dict as built by the agents:
`{type, title, description, action, impact}`. -/
structure Recommendation where
  type : String
  title : String
  description : String
  action : String
  impact : String
deriving DecidableEq

/-- A value stored in an agent's `metrics` dict: numeric or string. -/
inductive MVal where
  | num (q : ℚ)
  | str (s : String)
deriving DecidableEq

/-- An agent's `metrics` dict: an association list with string keys,
in insertion order. -/
abbrev Metrics := List (String × MVal)

/-- `m.get(k, d)` for a numeric metric: the stored number if the key is
present (default `d` if absent; a string value under a numeric key never
occurs in the code and also yields the default here). -/
def Metrics.getNum : Metrics → String → ℚ → ℚ
  | [], _, d => d
  | (k', v) :: rest, k, d =>
      if k' = k then (match v with | .num q => q | .str _ => d)
      else Metrics.getNum rest k d

/-- `m.get(k, d)` for a string metric. -/
def Metrics.getStr : Metrics → String → String → String
  | [], _, d => d
  | (k', v) :: rest, k, d =>
      if k' = k then (match v with | .num _ => d | .str s => s)
      else Metrics.getStr rest k d

/-- The dict returned by each agent's `analyze`:
`{agent_type, analysis, recommendations, metrics, priority_score}`. -/
structure AnalyzerResult where
  agent_type : String
  analysis : String
  recommendations : List Recommendation
  metrics : Metrics
  priority_score : ℤ
deriving DecidableEq

/-! ## String helpers modelling Python primitives -/

/-- Python `str.lower()` (ASCII-faithful, which covers all strings the
router compares). -/
def pyLower (s : String) : String :=
  String.mk (s.toList.map Char.toLower)

/-- Helper for `pyTitle`: walk the characters tracking whether the
previous character was alphabetic. -/
def titleChars : List Char → Bool → List Char
  | [], _ => []
  | c :: rest, prevAlpha =>
      (if prevAlpha then c.toLower else c.toUpper) :: titleChars rest c.isAlpha

/-- Python `str.title()`: uppercase the first letter of every maximal
alphabetic run, lowercase the rest. -/
def pyTitle (s : String) : String :=
  String.mk (titleChars s.toList false)

/-- Does the character list start with the given pattern? -/
def startsWithChars : List Char → List Char → Bool
  | [], _ => true
  | _ :: _, [] => false
  | p :: ps, c :: cs => p == c && startsWithChars ps cs

/-- Is the pattern a contiguous run of the character list? -/
def containsChars : List Char → List Char → Bool
  | pat, [] => startsWithChars pat []
  | pat, c :: cs => startsWithChars pat (c :: cs) || containsChars pat cs

/-- Python `pat in s` on strings: substring containment. -/
def strContainsSub (s pat : String) : Bool :=
  containsChars pat.toList s.toList

/-- `any(keyword in q for keyword in kws)`. -/
def matchesAny (q : String) (kws : List String) : Bool :=
  kws.any (fun k => strContainsSub q k)

/-- Round a rational to the nearest integer, halves away from zero on the
positive side (models the rounding of Python float formatting closely
enough for the formatted narrative strings, which no property depends
on). -/
def qRound (q : ℚ) : ℤ :=
  Int.fdiv (2 * q.num + (q.den : ℤ)) (2 * (q.den : ℤ))

/-- Insert thousands separators into a reversed digit list. -/
def groupRev : List Char → List Char
  | a :: b :: c :: d :: rest => a :: b :: c :: ',' :: groupRev (d :: rest)
  | l => l

/-- Insert `,` thousands separators into a digit string. -/
def addCommas (s : String) : String :=
  String.mk ((groupRev s.toList.reverse).reverse)

/-- Python f-string fixed-point formatting `:,.{prec}f` / `:.{prec}f` of a
float, modelled on `ℚ`: round to `prec` decimals, optional thousands
separators. -/
def fmtFixed (comma : Bool) (prec : ℕ) (q : ℚ) : String :=
  let scaled : ℤ := qRound (q * ((10 : ℚ) ^ prec))
  let n : ℕ := scaled.natAbs
  let ip : ℕ := n / 10 ^ prec
  let fp : ℕ := n % 10 ^ prec
  let ipStr := if comma then addCommas (toString ip) else toString ip
  let fpDigits := toString fp
  let fpStr :=
    if prec = 0 then ""
    else "." ++ String.mk (List.replicate (prec - fpDigits.length) '0') ++ fpDigits
  (if scaled < 0 then "-" else "") ++ ipStr ++ fpStr

/-- Sum of the `amount` fields of a record list, as in
`sum(item.get("amount", 0) for item in items)`. -/
def sumAmounts (l : List FinancialRecord) : ℚ :=
  (l.map FinancialRecord.amount).sum

/-! ## Debt analyzer (`agents/debt_analyzer.py`)

Local variables of `DebtAnalyzerAgent.analyze` are lifted to named
definitions parametrised by the `financial_data` record list. -/

namespace DebtAnalyzerAgent

/-- `debts`: the records with `data_type == "debt"`. -/
def debts (fd : List FinancialRecord) : List FinancialRecord :=
  fd.filter (fun r => r.data_type = "debt")

/-- `income_data`: the records with `data_type == "income"`. -/
def income_data (fd : List FinancialRecord) : List FinancialRecord :=
  fd.filter (fun r => r.data_type = "income")

/-- `total_debt = sum(debt.get("amount", 0) for debt in debts)`. -/
def total_debt (fd : List FinancialRecord) : ℚ := sumAmounts (debts fd)

/-- `total_income = sum(income.get("amount", 0) for income in income_data)`. -/
def total_income (fd : List FinancialRecord) : ℚ := sumAmounts (income_data fd)

/-- `debt_to_income = (total_debt / total_income * 100) if total_income > 0 else 0`. -/
def debt_to_income (fd : List FinancialRecord) : ℚ :=
  if total_income fd > 0 then total_debt fd / total_income fd * 100 else 0

/-- `_generate_recommendations(debts, total_income)`: empty when there are
no debts; otherwise a `debt_prioritization` item for the highest-interest
debt (stable sort by `metadata.get("interest_rate", 0)` descending), plus
a `consolidation` item when there are more than two debts.  A missing
interest rate prints as `unknown`, exactly as the Python `.get` chain
yields. -/
def generate_recommendations (ds : List FinancialRecord) (ti : ℚ) :
    List Recommendation :=
  if ds = [] then []
  else
    let sorted_debts :=
      ds.mergeSort (fun a b => (b.interest_rate.getD 0) ≤ (a.interest_rate.getD 0))
    let base : List Recommendation :=
      match sorted_debts with
      | [] => []
      | highest :: _ =>
          [{ type := "debt_prioritization"
           , title := "Focus on Highest Interest Debt First"
           , description := "Prioritize paying off " ++ highest.category ++ " with "
               ++ (match highest.interest_rate with
                   | some q => fmtFixed false 1 q
                   | none => "unknown")
               ++ "% interest rate"
           , action := "Pay minimum on all debts, then put extra $"
               ++ fmtFixed false 0 (min 500 (ti * (1 / 10) / 12))
               ++ "/month toward this debt"
           , impact := "Could save thousands in interest payments" }]
    base ++
      (if ds.length > 2 then
        [{ type := "consolidation"
         , title := "Consider Debt Consolidation"
         , description := "Multiple debts could benefit from consolidation"
         , action := "Research personal loans or balance transfer cards with lower rates"
         , impact := "Simplify payments and potentially reduce interest rates" }]
      else [])

/-- `_calculate_debt_priority(debt_to_income, total_debt)`. -/
def calculate_debt_priority (dti td : ℚ) : ℤ :=
  if dti > 40 then 10
  else if dti > 30 then 8
  else if dti > 20 then 6
  else if td > 0 then 4
  else 1

/-- `DebtAnalyzerAgent.analyze`: the returned dict.  The `narrative`
argument stands for the string returned by the external LLM collaborator
(`generate_response` applied to the analysis prompt). -/
def analyze (narrative : String) (fd : List FinancialRecord) : AnalyzerResult :=
  { agent_type := "debt_analyzer"
  , analysis := narrative
  , recommendations := generate_recommendations (debts fd) (total_income fd)
  , metrics :=
      [ ("total_debt", .num (total_debt fd))
      , ("debt_to_income_ratio", .num (debt_to_income fd))
      , ("debt_count", .num ((debts fd).length : ℚ)) ]
  , priority_score := calculate_debt_priority (debt_to_income fd) (total_debt fd) }

end DebtAnalyzerAgent

/-! ## Savings strategy agent (`agents/savings_strategy.py`) -/

namespace SavingsStrategyAgent

/-- `savings_data`: the records with `data_type == "savings"`. -/
def savings_data (fd : List FinancialRecord) : List FinancialRecord :=
  fd.filter (fun r => r.data_type = "savings")

/-- `income_data`: the records with `data_type == "income"`. -/
def income_data (fd : List FinancialRecord) : List FinancialRecord :=
  fd.filter (fun r => r.data_type = "income")

/-- `expense_data`: the records with `data_type == "expense"`. -/
def expense_data (fd : List FinancialRecord) : List FinancialRecord :=
  fd.filter (fun r => r.data_type = "expense")

/-- `total_savings = sum(...)`. -/
def total_savings (fd : List FinancialRecord) : ℚ := sumAmounts (savings_data fd)

/-- `total_income = sum(...)`. -/
def total_income (fd : List FinancialRecord) : ℚ := sumAmounts (income_data fd)

/-- `total_expenses = sum(...)`. -/
def total_expenses (fd : List FinancialRecord) : ℚ := sumAmounts (expense_data fd)

/-- `monthly_income = total_income / 12`. -/
def monthly_income (fd : List FinancialRecord) : ℚ := total_income fd / 12

/-- `monthly_expenses = total_expenses / 12`. -/
def monthly_expenses (fd : List FinancialRecord) : ℚ := total_expenses fd / 12

/-- `monthly_surplus = monthly_income - monthly_expenses`. -/
def monthly_surplus (fd : List FinancialRecord) : ℚ :=
  monthly_income fd - monthly_expenses fd

/-- `savings_rate = (monthly_surplus / monthly_income * 100) if monthly_income > 0 else 0`. -/
def savings_rate (fd : List FinancialRecord) : ℚ :=
  if monthly_income fd > 0 then monthly_surplus fd / monthly_income fd * 100 else 0

/-- `emergency_fund_target = monthly_expenses * 6`. -/
def emergency_fund_target (fd : List FinancialRecord) : ℚ :=
  monthly_expenses fd * 6

/-- `emergency_fund_gap = max(0, emergency_fund_target - total_savings)`. -/
def emergency_fund_gap (fd : List FinancialRecord) : ℚ :=
  max 0 (emergency_fund_target fd - total_savings fd)

/-- `_generate_recommendations(total_savings, monthly_surplus, emergency_fund_gap, savings_rate)`:
an `emergency_fund` item when the gap is positive, a `savings_rate` item
when the rate is below 20, an `investment` item when savings exceed
10000, and always an `account_optimization` item. -/
def generate_recommendations (ts msur gap rate : ℚ) : List Recommendation :=
  (if gap > 0 then
    [{ type := "emergency_fund"
     , title := "Complete Emergency Fund"
     , description := "Build emergency fund to $" ++ fmtFixed true 0 (gap + ts)
     , action := "Save $" ++ fmtFixed true 0 (min (msur * (1 / 2)) (gap / 6))
         ++ "/month in high-yield savings"
     , impact := "Complete in " ++ fmtFixed false 0 (gap / max (msur * (1 / 2)) 100)
         ++ " months, providing 6 months expense coverage" }]
  else []) ++
  (if rate < 20 then
    [{ type := "savings_rate"
     , title := "Increase Savings Rate"
     , description := "Current rate " ++ fmtFixed false 1 rate
         ++ "% is below recommended 20%"
     , action := "Increase monthly savings by $" ++ fmtFixed false 0 (max 100 (msur * (1 / 5)))
         ++ " through automated transfers"
     , impact := "Reach recommended 20% savings rate for financial security" }]
  else []) ++
  (if ts > 10000 then
    [{ type := "investment"
     , title := "Start Investment Portfolio"
     , description := "Begin investing surplus savings for long-term growth"
     , action := "Open investment account and start with 60/40 stock/bond allocation"
     , impact := "Potential 7-10% annual returns vs 2-3% in savings" }]
  else []) ++
  [{ type := "account_optimization"
   , title := "Optimize Savings Accounts"
   , description := "Move savings to high-yield accounts"
   , action := "Research accounts offering 4-5% APY vs traditional 0.1%"
   , impact := "Earn additional $" ++ fmtFixed false 0 (ts * (1 / 25))
       ++ "/year in interest" }]

/-- `_calculate_savings_priority(savings_rate, emergency_fund_gap)`. -/
def calculate_savings_priority (rate gap : ℚ) : ℤ :=
  if gap > 10000 then 9
  else if rate < 10 then 7
  else if rate < 20 then 5
  else 3

/-- `SavingsStrategyAgent.analyze`: the returned dict; `narrative` stands
for the LLM collaborator's output. -/
def analyze (narrative : String) (fd : List FinancialRecord) : AnalyzerResult :=
  { agent_type := "savings_strategy"
  , analysis := narrative
  , recommendations :=
      generate_recommendations (total_savings fd) (monthly_surplus fd)
        (emergency_fund_gap fd) (savings_rate fd)
  , metrics :=
      [ ("total_savings", .num (total_savings fd))
      , ("savings_rate", .num (savings_rate fd))
      , ("emergency_fund_progress", .num
          (if emergency_fund_target fd > 0 then
            total_savings fd / emergency_fund_target fd * 100
          else 0))
      , ("monthly_surplus", .num (monthly_surplus fd)) ]
  , priority_score := calculate_savings_priority (savings_rate fd) (emergency_fund_gap fd) }

end SavingsStrategyAgent

/-! ## Budget optimizer agent (`agents/budget_optimizer.py`) -/

namespace BudgetOptimizerAgent

/-- `expense_data`: the records with `data_type == "expense"`. -/
def expense_data (fd : List FinancialRecord) : List FinancialRecord :=
  fd.filter (fun r => r.data_type = "expense")

/-- `income_data`: the records with `data_type == "income"`. -/
def income_data (fd : List FinancialRecord) : List FinancialRecord :=
  fd.filter (fun r => r.data_type = "income")

/-- `total_income = sum(...)`. -/
def total_income (fd : List FinancialRecord) : ℚ := sumAmounts (income_data fd)

/-- `total_expenses = sum(...)`. -/
def total_expenses (fd : List FinancialRecord) : ℚ := sumAmounts (expense_data fd)

/-- `monthly_income = total_income / 12`. -/
def monthly_income (fd : List FinancialRecord) : ℚ := total_income fd / 12

/-- `monthly_expenses = total_expenses / 12`. -/
def monthly_expenses (fd : List FinancialRecord) : ℚ := total_expenses fd / 12

/-- One step of the `expense_categories` accumulation loop: add the
record's amount to its category's entry, first occurrence fixing the
position (Python dicts iterate in insertion order). -/
def accumCategory (acc : List (String × ℚ)) (r : FinancialRecord) :
    List (String × ℚ) :=
  match acc.lookup r.category with
  | some v => acc.map (fun p => if p.1 = r.category then (p.1, v + r.amount) else p)
  | none => acc ++ [(r.category, r.amount)]

/-- `expense_categories`: category → summed amount, in first-seen order. -/
def expense_categories (fd : List FinancialRecord) : List (String × ℚ) :=
  (expense_data fd).foldl accumCategory []

/-- `expense_percentages`: category → `(amount / total_income * 100) if
total_income > 0 else 0`. -/
def expense_percentages (fd : List FinancialRecord) : List (String × ℚ) :=
  (expense_categories fd).map
    (fun p => (p.1, if total_income fd > 0 then p.2 / total_income fd * 100 else 0))

/-- `sorted_expenses = sorted(expense_categories.items(), key=amount, reverse=True)`. -/
def sorted_expenses (fd : List FinancialRecord) : List (String × ℚ) :=
  (expense_categories fd).mergeSort (fun a b => b.2 ≤ a.2)

/-- `category_total(cats, names)`: `cats.get(n1, 0) + cats.get(n2, 0) + ...`. -/
def catGet (cats : List (String × ℚ)) (k : String) : ℚ :=
  (cats.lookup k).getD 0

/-- `_generate_recommendations(expense_categories, monthly_income, monthly_expenses)`. -/
def generate_recommendations (cats : List (String × ℚ)) (mi me : ℚ) :
    List Recommendation :=
  let housing_expenses := catGet cats "Housing" + catGet cats "Rent" + catGet cats "Mortgage"
  let housing_percentage := if mi > 0 then housing_expenses / (mi * 12) * 100 else 0
  (if housing_percentage > 30 then
    let potential_savings := (housing_expenses - mi * 12 * (3 / 10)) / 12
    [{ type := "housing_optimization"
     , title := "Reduce Housing Costs"
     , description := "Housing costs are " ++ fmtFixed false 1 housing_percentage
         ++ "% of income (recommended: 30%)"
     , action := "Consider refinancing, roommate, or downsizing to save $"
         ++ fmtFixed false 0 potential_savings ++ "/month"
     , impact := "Could free up $" ++ fmtFixed false 0 (potential_savings * 12)
         ++ "/year for savings or debt payoff" }]
  else []) ++
  (if catGet cats "Transportation" + catGet cats "Car" + catGet cats "Gas"
      > mi * 12 * (3 / 20) then
    [{ type := "transportation"
     , title := "Optimize Transportation Costs"
     , description := "Transportation costs are above recommended 15% of income"
     , action := "Review car insurance, consider carpooling, public transit, or more fuel-efficient vehicle"
     , impact := "Potential savings of $100-300/month" }]
  else []) ++
  (if catGet cats "Entertainment" + catGet cats "Subscriptions" > 0 then
    [{ type := "subscription_audit"
     , title := "Audit Subscriptions and Entertainment"
     , description := "Currently spending $"
         ++ fmtFixed false 0 ((catGet cats "Entertainment" + catGet cats "Subscriptions") / 12)
         ++ "/month on entertainment/subscriptions"
     , action := "Cancel unused subscriptions, negotiate better rates, bundle services"
     , impact := "Typical savings of $50-150/month from subscription optimization" }]
  else []) ++
  (if catGet cats "Food" + catGet cats "Dining" + catGet cats "Groceries"
      > mi * 12 * (3 / 25) then
    [{ type := "food_optimization"
     , title := "Optimize Food and Dining Expenses"
     , description := "Food expenses are above recommended 10-12% of income"
     , action := "Meal planning, cooking at home, bulk buying, reduce dining out frequency"
     , impact := "Potential savings of $"
         ++ fmtFixed false 0
             ((catGet cats "Food" + catGet cats "Dining" + catGet cats "Groceries"
               - mi * 12 * (1 / 10)) / 12)
         ++ "/month" }]
  else []) ++
  (if me ≥ mi * (19 / 20) then
    [{ type := "emergency_buffer"
     , title := "Create Budget Buffer"
     , description := "Very tight budget with little room for unexpected expenses"
     , action := "Identify $200-500/month in expense reductions for emergency buffer"
     , impact := "Prevent debt accumulation from unexpected expenses" }]
  else [])

/-- `_calculate_budget_priority(monthly_income, monthly_expenses)`: note
the ratio defaults to `1` (not `0`) when monthly income is not positive. -/
def calculate_budget_priority (mi me : ℚ) : ℤ :=
  let expense_ratio := if mi > 0 then me / mi else 1
  if expense_ratio ≥ 1 then 10
  else if expense_ratio ≥ 19 / 20 then 8
  else if expense_ratio ≥ 17 / 20 then 6
  else if expense_ratio ≥ 7 / 10 then 4
  else 2

/-- `BudgetOptimizerAgent.analyze`: the returned dict; `narrative` stands
for the LLM collaborator's output. -/
def analyze (narrative : String) (fd : List FinancialRecord) : AnalyzerResult :=
  { agent_type := "budget_optimizer"
  , analysis := narrative
  , recommendations :=
      generate_recommendations (expense_categories fd) (monthly_income fd)
        (monthly_expenses fd)
  , metrics :=
      [ ("monthly_income", .num (monthly_income fd))
      , ("monthly_expenses", .num (monthly_expenses fd))
      , ("expense_ratio", .num
          (if monthly_income fd > 0 then
            monthly_expenses fd / monthly_income fd * 100
          else 0))
      , ("largest_expense_category", .str
          (match sorted_expenses fd with
           | [] => "None"
           | p :: _ => p.1)) ]
  , priority_score := calculate_budget_priority (monthly_income fd) (monthly_expenses fd) }

end BudgetOptimizerAgent

/-! ## Data-store adapter (`database/supabase_client.py`)

The hosted store is modelled as an in-memory state: the `agent_insights`
table (rows in insertion order) and the `financial_documents` table.
Each adapter method becomes a pure state transformer. -/

/-- A row of the `agent_insights` table as written by
`SupabaseClient.store_agent_insight` (`is_active` starts `true`, the
table default; rows are never deleted, only flagged inactive). -/
structure Insight where
  user_id : String
  agent_type : String
  insight_type : String
  title : String
  content : String
  recommendations : List Recommendation
  priority_score : ℤ
  is_active : Bool
deriving DecidableEq

/-- A row of the `financial_documents` table, restricted to the fields
the orchestrator touches: `upload_status` and the `error` entry of
`processing_metadata`. -/
structure DocumentRow where
  id : String
  user_id : String
  upload_status : String
  processing_error : Option String
deriving DecidableEq

/-- The data-store state seen by the orchestrator. -/
structure DBState where
  insights : List Insight
  documents : List DocumentRow
deriving DecidableEq

namespace SupabaseClient

/-- `store_agent_insight(user_id, agent_type, insight_type, title,
content, recommendations, priority_score)`: insert one row. -/
def store_agent_insight (st : DBState) (user_id agent_type insight_type title content : String)
    (recommendations : List Recommendation) (priority_score : ℤ) : DBState :=
  { st with insights := st.insights ++
      [{ user_id := user_id, agent_type := agent_type, insight_type := insight_type
       , title := title, content := content, recommendations := recommendations
       , priority_score := priority_score, is_active := true }] }

/-- `deactivate_old_insights(user_id, agent_type)`: set `is_active` to
`false` on every row matching the user and agent type. -/
def deactivate_old_insights (st : DBState) (user_id agent_type : String) : DBState :=
  { st with insights := st.insights.map (fun i =>
      if i.user_id = user_id ∧ i.agent_type = agent_type then
        { i with is_active := false }
      else i) }

/-- `update_document_status(document_id, status, metadata)`: set
`upload_status` on the matching row; when a metadata dict is passed
(always `{"error": str(e)}` in the orchestrator) also record the error. -/
def update_document_status (st : DBState) (document_id status : String)
    (metadata_error : Option String) : DBState :=
  { st with documents := st.documents.map (fun d =>
      if d.id = document_id then
        { d with upload_status := status
               , processing_error :=
                   match metadata_error with
                   | some e => some e
                   | none => d.processing_error }
      else d) }

end SupabaseClient

/-! ## Orchestrator (`agents/orchestrator.py`)

The three analyzer invocations are external-collaborator calls (they
contain the LLM call), so each run's outcome enters the model as an
`Except String AnalyzerResult`: `.ok` with the returned dict, `.error`
with the raised exception's message. -/

namespace AgentOrchestrator

/-- `asyncio.gather` over the three analyzer coroutines: all three
results, or the raised failure (when several fail, which exception
`gather` re-raises is immaterial to the properties below, which concern
a single failure; the model propagates the first in argument order). -/
def runAnalyzers (r1 r2 r3 : Except String AnalyzerResult) :
    Except String (AnalyzerResult × AnalyzerResult × AnalyzerResult) := do
  let d ← r1
  let s ← r2
  let b ← r3
  pure (d, s, b)

/-- The insight row inserted for an analysis dict by the first
`store_agent_insight` call of `_store_agent_insights`. -/
def analysisInsight (user_id : String) (a : AnalyzerResult) : Insight :=
  { user_id := user_id, agent_type := a.agent_type, insight_type := "analysis"
  , title := pyTitle (a.agent_type.replace "_" " ") ++ " Analysis"
  , content := a.analysis, recommendations := a.recommendations
  , priority_score := a.priority_score, is_active := true }

/-- The insight row inserted for one recommendation by the inner loop of
`_store_agent_insights`: priority 8 for `emergency_fund` and
`debt_prioritization` items, 5 otherwise. -/
def recInsight (user_id agent_type : String) (r : Recommendation) : Insight :=
  { user_id := user_id, agent_type := agent_type, insight_type := "recommendation"
  , title := r.title, content := r.description, recommendations := [r]
  , priority_score :=
      if r.type = "emergency_fund" ∨ r.type = "debt_prioritization" then 8 else 5
  , is_active := true }

/-- `_store_agent_insights(user_id, analyses)`: for each analysis dict,
insert the main analysis insight, then one insight per recommendation. -/
def store_agent_insights (st : DBState) (user_id : String)
    (analyses : List AnalyzerResult) : DBState :=
  analyses.foldl (fun s a =>
    let s1 := SupabaseClient.store_agent_insight s user_id a.agent_type "analysis"
      (pyTitle (a.agent_type.replace "_" " ") ++ " Analysis") a.analysis
      a.recommendations a.priority_score
    a.recommendations.foldl (fun s2 r =>
      SupabaseClient.store_agent_insight s2 user_id a.agent_type "recommendation"
        r.title r.description [r]
        (if r.type = "emergency_fund" ∨ r.type = "debt_prioritization" then 8 else 5))
      s1) st

/-- `_generate_summary(debt_analysis, savings_analysis, budget_analysis)`
builds `summary_parts`: the debt fragment only when the reported
`total_debt` metric is positive, then always a savings fragment and a
budget fragment. -/
def summary_parts (debt_analysis savings_analysis budget_analysis : AnalyzerResult) :
    List String :=
  let debt_metrics := debt_analysis.metrics
  let savings_metrics := savings_analysis.metrics
  let budget_metrics := budget_analysis.metrics
  (if Metrics.getNum debt_metrics "total_debt" 0 > 0 then
    ["Debt Analysis: $" ++ fmtFixed true 0 (Metrics.getNum debt_metrics "total_debt" 0)
      ++ " total debt with "
      ++ fmtFixed false 1 (Metrics.getNum debt_metrics "debt_to_income_ratio" 0)
      ++ "% debt-to-income ratio"]
  else []) ++
  [ "Savings Analysis: " ++ fmtFixed false 1 (Metrics.getNum savings_metrics "savings_rate" 0)
      ++ "% savings rate, $" ++ fmtFixed true 0 (Metrics.getNum savings_metrics "total_savings" 0)
      ++ " current savings"
  , "Budget Analysis: " ++ fmtFixed false 1 (Metrics.getNum budget_metrics "expense_ratio" 0)
      ++ "% expense ratio, largest category: "
      ++ Metrics.getStr budget_metrics "largest_expense_category" "N/A" ]

/-- `_generate_summary`: `" | ".join(summary_parts)`. -/
def generate_summary (d s b : AnalyzerResult) : String :=
  String.intercalate " | " (summary_parts d s b)

/-- The merged report returned by a successful `analyze_document`. -/
structure AnalysisReport where
  document_id : String
  user_id : String
  debt_analysis : AnalyzerResult
  savings_analysis : AnalyzerResult
  budget_analysis : AnalyzerResult
  summary : String
deriving DecidableEq

/-- `analyze_document(document_id)`.  `resolved_user` is the outcome of
the chunk-fetch / owning-user resolution at the top of the `try` block
(`none` models the `ValueError` paths there); the three `Except`
arguments are the `asyncio.gather`ed analyzer runs.  Any failure lands in
the `except` branch: the document is marked `failed` with the error
attached, and the exception is re-raised (`Except.error`).  Insights are
stored only after all three results are joined. -/
def analyze_document (st : DBState) (document_id : String)
    (resolved_user : Option String)
    (debt_run savings_run budget_run : Except String AnalyzerResult) :
    DBState × Except String AnalysisReport :=
  match resolved_user with
  | none =>
      let e := "Could not determine user_id for document"
      (SupabaseClient.update_document_status st document_id "failed" (some e), .error e)
  | some user_id =>
      match runAnalyzers debt_run savings_run budget_run with
      | .error e =>
          (SupabaseClient.update_document_status st document_id "failed" (some e), .error e)
      | .ok (d, s, b) =>
          let st1 := store_agent_insights st user_id [d, s, b]
          (st1, .ok { document_id := document_id, user_id := user_id
                    , debt_analysis := d, savings_analysis := s, budget_analysis := b
                    , summary := generate_summary d s b })

/-- `refresh_user_analysis(user_id)`: deactivate the current insights of
the three agent types (the `asyncio.gather` of the three independent
updates is modelled by their sequential composition), then rerun the
three analyzers and store fresh insights; returns the per-agent
recommendation counts.  A failing analyzer run leaves the deactivation
in place and re-raises. -/
def refresh_user_analysis (st : DBState) (user_id : String)
    (debt_run savings_run budget_run : Except String AnalyzerResult) :
    DBState × Except String (ℕ × ℕ × ℕ) :=
  let st1 := SupabaseClient.deactivate_old_insights st user_id "debt_analyzer"
  let st2 := SupabaseClient.deactivate_old_insights st1 user_id "savings_strategy"
  let st3 := SupabaseClient.deactivate_old_insights st2 user_id "budget_optimizer"
  match runAnalyzers debt_run savings_run budget_run with
  | .error e => (st3, .error e)
  | .ok (d, s, b) =>
      (store_agent_insights st3 user_id [d, s, b],
       .ok (d.recommendations.length, s.recommendations.length, b.recommendations.length))

/-! ### Query routing (`handle_user_query`, `_handle_general_query`)

`handle_user_query` selects an agent and returns that agent's
`generate_response` output; since the response text is the external LLM
collaborator's, the embedding returns which agent was selected. -/

/-- The three specialised agents. -/
inductive AgentId where
  | debt_analyzer
  | savings_strategy
  | budget_optimizer
deriving DecidableEq

/-- A value of the `context` dict assembled by `handle_user_query`. -/
inductive CtxVal where
  | records (l : List FinancialRecord)
  | summary (s : List (String × ℚ))
  | insights (l : List Insight)
  | num (q : ℚ)
deriving DecidableEq

/-- `context.get(key, default)` for a numeric read (`0` when absent, as
for the `savings_rate` key, which `handle_user_query` never fills in). -/
def ctxGetNum (c : List (String × CtxVal)) (k : String) (d : ℚ) : ℚ :=
  match c.lookup k with
  | some (.num q) => q
  | _ => d

/-- `context.get("financial_summary", {})`. -/
def ctxGetSummary (c : List (String × CtxVal)) : List (String × ℚ) :=
  match c.lookup "financial_summary" with
  | some (.summary s) => s
  | _ => []

/-- `_handle_general_query(message, context)`: agent chosen by the
posture fallback.  `total_debt` comes from the financial summary;
`savings_rate` is read from the `context` dict itself with default 0. -/
def handle_general_query (context : List (String × CtxVal)) : AgentId :=
  let financial_summary := ctxGetSummary context
  let total_debt := ((financial_summary.lookup "total_debt").getD 0)
  let savings_rate := ctxGetNum context "savings_rate" 0
  if total_debt > 10000 then .debt_analyzer
  else if savings_rate < 15 then .savings_strategy
  else .budget_optimizer

/-- The debt keyword set of `handle_user_query`. -/
def debtKeywords : List String := ["debt", "loan", "credit", "payoff", "interest"]

/-- The savings keyword set of `handle_user_query`. -/
def savingsKeywords : List String := ["save", "saving", "investment", "retire", "emergency fund"]

/-- The budget keyword set of `handle_user_query`. -/
def budgetKeywords : List String := ["budget", "expense", "spending", "cost", "subscription"]

/-- `handle_user_query(user_id, message, session_id)`: assemble the
context dict, lower-case the message, and match the three keyword sets
in order debt, savings, budget; on no match fall through to
`_handle_general_query`.  Returns the selected agent. -/
def handle_user_query (financial_data : List FinancialRecord)
    (financial_summary : List (String × ℚ)) (recent_insights : List Insight)
    (message : String) : AgentId :=
  let context : List (String × CtxVal) :=
    [ ("financial_data", .records financial_data)
    , ("financial_summary", .summary financial_summary)
    , ("recent_insights", .insights recent_insights) ]
  let query_lower := pyLower message
  if matchesAny query_lower debtKeywords then .debt_analyzer
  else if matchesAny query_lower savingsKeywords then .savings_strategy
  else if matchesAny query_lower budgetKeywords then .budget_optimizer
  else handle_general_query context

end AgentOrchestrator

/-! ## Derived definitions used by the specifications -/

namespace AgentOrchestrator

/-- The block of insight rows `_store_agent_insights` inserts for one
analysis dict: the analysis insight followed by one insight per
recommendation. -/
def insightsOf (user_id : String) (a : AnalyzerResult) : List Insight :=
  analysisInsight user_id a :: a.recommendations.map (recInsight user_id a.agent_type)

/-- Is this row an active insight of the given user and agent type? -/
def activeRow (user_id agent_type : String) (i : Insight) : Bool :=
  decide (i.user_id = user_id ∧ i.agent_type = agent_type ∧ i.is_active = true)

/-- The active insight rows of a user for one agent type, in table
order. -/
def activesFor (st : DBState) (user_id agent_type : String) : List Insight :=
  st.insights.filter (activeRow user_id agent_type)

/-- The three agent types `refresh_user_analysis` deactivates. -/
def threeAgentTypes : List String :=
  ["debt_analyzer", "savings_strategy", "budget_optimizer"]

/-- Combined effect on one row of the three deactivation updates of
`refresh_user_analysis`. -/
def deact3 (user_id : String) (i : Insight) : Insight :=
  if i.user_id = user_id ∧ i.agent_type ∈ threeAgentTypes then
    { i with is_active := false }
  else i

end AgentOrchestrator

/-- A minimal analyzer result used to instantiate theorems at concrete
inputs. -/
def sampleResult : AnalyzerResult :=
  { agent_type := "debt_analyzer", analysis := "n", recommendations := []
  , metrics := [], priority_score := 5 }

/-- A document row awaiting processing. -/
def sampleDoc : DocumentRow :=
  { id := "doc1", user_id := "u1", upload_status := "processing", processing_error := none }

/-- A store state with no insights and one unprocessed document. -/
def sampleDB : DBState := { insights := [], documents := [sampleDoc] }

/-- A record set with one expense and no income. -/
def expenseOnlyRecords : List FinancialRecord :=
  [{ data_type := "expense", category := "Food", amount := 1200, interest_rate := none }]

/-- A record set with income and no debt. -/
def noDebtRecords : List FinancialRecord :=
  [{ data_type := "income", category := "Salary", amount := 60000, interest_rate := none }]

/-! ## Characterisation lemmas for the persistence layer -/

namespace AgentOrchestrator

lemma foldl_insights_append {α : Type} (f : DBState → α → DBState) (g : α → List Insight)
    (hf : ∀ s a, f s a = { s with insights := s.insights ++ g a }) :
    ∀ (l : List α) (s : DBState), l.foldl f s = { s with insights := s.insights ++ l.flatMap g }
  | [], s => by simp
  | a :: l, s => by
      rw [List.foldl_cons, hf, foldl_insights_append f g hf l]
      simp [List.append_assoc]

lemma store_recs_foldl (u aty : String) :
    ∀ (recs : List Recommendation) (s : DBState),
      recs.foldl (fun s2 r =>
          SupabaseClient.store_agent_insight s2 u aty "recommendation" r.title r.description [r]
            (if r.type = "emergency_fund" ∨ r.type = "debt_prioritization" then 8 else 5)) s
        = { s with insights := s.insights ++ recs.map (recInsight u aty) }
  | [], s => by simp
  | r :: rs, s => by
      rw [List.foldl_cons, store_recs_foldl u aty rs]
      simp [SupabaseClient.store_agent_insight, recInsight, List.append_assoc]

lemma store_agent_insights_eq (st : DBState) (u : String) (l : List AnalyzerResult) :
    store_agent_insights st u l
      = { st with insights := st.insights ++ l.flatMap (insightsOf u) } := by
  unfold store_agent_insights
  refine foldl_insights_append _ (insightsOf u) ?_ l st
  intro s a
  simp only [store_recs_foldl]
  simp [SupabaseClient.store_agent_insight, insightsOf, analysisInsight, List.append_assoc]

/-! ## Claim theorems -/

/-- C2: for every `AnalyzerResult` persisted by the orchestrator,
exactly `1 + R` insights are stored, where `R` is the number of
recommendations in the result: first one insight with
`insight_type = analysis` carrying the narrative and the full
recommendation list (and the analyzer's priority score), then one
insight with `insight_type = recommendation` per recommendation, whose
priority score is 8 when the recommendation's type tag is
`emergency_fund` or `debt_prioritization` and 5 otherwise, independent
of the analyzer's own priority score. -/
theorem store_agent_insights_one_plus_R (st : DBState) (u : String) (a : AnalyzerResult) :
    (store_agent_insights st u [a]).insights
      = st.insights ++
        ({ user_id := u, agent_type := a.agent_type, insight_type := "analysis"
         , title := pyTitle (a.agent_type.replace "_" " ") ++ " Analysis"
         , content := a.analysis, recommendations := a.recommendations
         , priority_score := a.priority_score, is_active := true } : Insight)
          :: a.recommendations.map (fun r =>
            ({ user_id := u, agent_type := a.agent_type, insight_type := "recommendation"
             , title := r.title, content := r.description, recommendations := [r]
             , priority_score :=
                 if r.type = "emergency_fund" ∨ r.type = "debt_prioritization" then (8 : ℤ)
                 else 5
             , is_active := true } : Insight))
      ∧ (store_agent_insights st u [a]).insights.length
          = st.insights.length + (1 + a.recommendations.length) := by
  rw [store_agent_insights_eq]
  constructor
  · simp [insightsOf, analysisInsight, recInsight]
  · simp [insightsOf, Nat.add_comm]

/-- C1: `analyze_document` is all-or-nothing over analyzer failure: when
exactly one of the three analyzer runs fails with error `e`, no insight
row is added, the source document's status is set to `failed` with the
error attached, and the failure propagates to the caller; and insight
rows are only ever added when all three analyzer results are available
(joined) — never from a partial set. -/
theorem analyze_document_all_or_nothing (st : DBState) (document_id user_id : String)
    (r1 r2 r3 : Except String AnalyzerResult) :
    (∀ e : String,
      ((r1 = .error e ∧ (∃ a, r2 = .ok a) ∧ (∃ a, r3 = .ok a)) ∨
       ((∃ a, r1 = .ok a) ∧ r2 = .error e ∧ (∃ a, r3 = .ok a)) ∨
       ((∃ a, r1 = .ok a) ∧ (∃ a, r2 = .ok a) ∧ r3 = .error e)) →
      (analyze_document st document_id (some user_id) r1 r2 r3).1.insights = st.insights ∧
      (analyze_document st document_id (some user_id) r1 r2 r3).1.documents
        = st.documents.map (fun d =>
            if d.id = document_id then
              { d with upload_status := "failed", processing_error := some e }
            else d) ∧
      (analyze_document st document_id (some user_id) r1 r2 r3).2 = .error e) ∧
    ((analyze_document st document_id (some user_id) r1 r2 r3).1.insights ≠ st.insights →
      (∃ a, r1 = .ok a) ∧ (∃ a, r2 = .ok a) ∧ (∃ a, r3 = .ok a)) := by
  constructor
  · intro e he
    rcases he with ⟨h1, ⟨a2, h2⟩, ⟨a3, h3⟩⟩ | ⟨⟨a1, h1⟩, h2, ⟨a3, h3⟩⟩ | ⟨⟨a1, h1⟩, ⟨a2, h2⟩, h3⟩ <;>
      subst h1 <;> subst h2 <;> subst h3 <;> exact ⟨rfl, rfl, rfl⟩
  · intro hne
    cases r1 with
    | error e => exact absurd rfl hne
    | ok a1 =>
      cases r2 with
      | error e => exact absurd rfl hne
      | ok a2 =>
        cases r3 with
        | error e => exact absurd rfl hne
        | ok a3 => exact ⟨⟨a1, rfl⟩, ⟨a2, rfl⟩, ⟨a3, rfl⟩⟩

/-- Witness for C1: a failing debt analyzer run next to two successful
runs, on an empty insights table with one pending document. -/
theorem analyze_document_all_or_nothing_witness :
    (analyze_document sampleDB "doc1" (some "u1") (.error "llm timeout")
        (.ok sampleResult) (.ok sampleResult)).1.insights = sampleDB.insights ∧
    (analyze_document sampleDB "doc1" (some "u1") (.error "llm timeout")
        (.ok sampleResult) (.ok sampleResult)).1.documents
      = sampleDB.documents.map (fun d =>
          if d.id = "doc1" then
            { d with upload_status := "failed", processing_error := some "llm timeout" }
          else d) ∧
    (analyze_document sampleDB "doc1" (some "u1") (.error "llm timeout")
        (.ok sampleResult) (.ok sampleResult)).2 = .error "llm timeout" :=
  (analyze_document_all_or_nothing sampleDB "doc1" "u1" (.error "llm timeout")
      (.ok sampleResult) (.ok sampleResult)).1 "llm timeout"
    (Or.inl ⟨rfl, ⟨sampleResult, rfl⟩, ⟨sampleResult, rfl⟩⟩)

/-- C9: on every successful `analyze_document` run the stored document
rows (status and metadata) are unchanged, and whenever the document
table does change, the change is exactly the failure-path write that
marks the document `failed` with an error — no success status is ever
written. -/
theorem analyze_document_document_frame (st : DBState) (document_id user_id : String)
    (a b c : AnalyzerResult) :
    (analyze_document st document_id (some user_id) (.ok a) (.ok b) (.ok c)).1.documents
      = st.documents ∧
    (∀ (uo : Option String) (r1 r2 r3 : Except String AnalyzerResult),
      (analyze_document st document_id uo r1 r2 r3).1.documents ≠ st.documents →
      ∃ e : String,
        (analyze_document st document_id uo r1 r2 r3).1.documents
          = st.documents.map (fun d =>
              if d.id = document_id then
                { d with upload_status := "failed", processing_error := some e }
              else d)) := by
  constructor
  · show (store_agent_insights st user_id [a, b, c]).documents = st.documents
    rw [store_agent_insights_eq]
  · intro uo r1 r2 r3 hne
    cases uo with
    | none => exact ⟨"Could not determine user_id for document", rfl⟩
    | some uid =>
      cases r1 with
      | error e => exact ⟨e, rfl⟩
      | ok a1 =>
        cases r2 with
        | error e => exact ⟨e, rfl⟩
        | ok a2 =>
          cases r3 with
          | error e => exact ⟨e, rfl⟩
          | ok a3 =>
            exfalso
            apply hne
            show (store_agent_insights st uid [a1, a2, a3]).documents = st.documents
            rw [store_agent_insights_eq]

/-- Witness for C9: on the sample store, a run with an unresolved user
changes the document table only by the failed-status write. -/
theorem analyze_document_document_frame_witness :
    (analyze_document sampleDB "doc1" none (.error "x") (.error "x")
        (.error "x")).1.documents ≠ sampleDB.documents ∧
    ∃ e : String,
      (analyze_document sampleDB "doc1" none (.error "x") (.error "x")
          (.error "x")).1.documents
        = sampleDB.documents.map (fun d =>
            if d.id = "doc1" then
              { d with upload_status := "failed", processing_error := some e }
            else d) :=
  ⟨by decide,
   (analyze_document_document_frame sampleDB "doc1" "u1" sampleResult sampleResult
      sampleResult).2 none (.error "x") (.error "x") (.error "x") (by decide)⟩

/-- C8 counterexample: on a record set with income and no debt, the
debt analyzer reports `total_debt = 0`, so `_generate_summary` builds
only two fragments — the summary does not contain one fragment per
analyzer for every input. -/
theorem summary_missing_debt_fragment :
    (summary_parts (DebtAnalyzerAgent.analyze "n" noDebtRecords)
        (SavingsStrategyAgent.analyze "n" noDebtRecords)
        (BudgetOptimizerAgent.analyze "n" noDebtRecords)).length = 2 ∧
    (summary_parts (DebtAnalyzerAgent.analyze "n" noDebtRecords)
        (SavingsStrategyAgent.analyze "n" noDebtRecords)
        (BudgetOptimizerAgent.analyze "n" noDebtRecords)).length ≠ 3 :=
  ⟨by decide, by decide⟩

/-- C8 (amended): every successful `analyze_document` returns the merged
report containing all three analyzer results and the summary string
joining the fragments with the fixed separator `" | "`; the summary has
three fragments when the debt result's reported `total_debt` metric is
positive, and two fragments (no debt fragment) otherwise. -/
theorem analyze_document_report_structure (st : DBState) (document_id user_id : String)
    (d s b : AnalyzerResult) :
    (analyze_document st document_id (some user_id) (.ok d) (.ok s) (.ok b)).2
      = .ok { document_id := document_id, user_id := user_id
            , debt_analysis := d, savings_analysis := s, budget_analysis := b
            , summary := String.intercalate " | " (summary_parts d s b) } ∧
    (summary_parts d s b).length
      = if Metrics.getNum d.metrics "total_debt" 0 > 0 then 3 else 2 := by
  refine ⟨rfl, ?_⟩
  by_cases h : Metrics.getNum d.metrics "total_debt" 0 > 0 <;> simp [summary_parts, h]

/-- C5: `handle_user_query` routes by case-insensitive substring match
against the three fixed keyword sets in the fixed order debt, savings,
budget, first match winning; in particular the message
`"pay off my loan and save more"` routes to the debt analyzer even
though it also contains a savings keyword. -/
theorem handle_user_query_keyword_precedence (financial_data : List FinancialRecord)
    (financial_summary : List (String × ℚ)) (recent_insights : List Insight)
    (message : String) :
    (matchesAny (pyLower message) debtKeywords = true →
      handle_user_query financial_data financial_summary recent_insights message
        = .debt_analyzer) ∧
    (matchesAny (pyLower message) debtKeywords = false →
      matchesAny (pyLower message) savingsKeywords = true →
      handle_user_query financial_data financial_summary recent_insights message
        = .savings_strategy) ∧
    (matchesAny (pyLower message) debtKeywords = false →
      matchesAny (pyLower message) savingsKeywords = false →
      matchesAny (pyLower message) budgetKeywords = true →
      handle_user_query financial_data financial_summary recent_insights message
        = .budget_optimizer) ∧
    handle_user_query financial_data financial_summary recent_insights
      "pay off my loan and save more" = .debt_analyzer := by
  refine ⟨?_, ?_, ?_, ?_⟩
  · intro h; simp [handle_user_query, h]
  · intro h1 h2; simp [handle_user_query, h1, h2]
  · intro h1 h2 h3; simp [handle_user_query, h1, h2, h3]
  · have h : matchesAny (pyLower "pay off my loan and save more") debtKeywords = true := by
      decide
    simp [handle_user_query, h]

/-- Witness for C5: a message containing a debt keyword in mixed case
routes to the debt analyzer. -/
theorem handle_user_query_keyword_precedence_witness :
    matchesAny (pyLower "how to pay off my DEBT") debtKeywords = true ∧
    handle_user_query [] [] [] "how to pay off my DEBT" = .debt_analyzer :=
  ⟨by decide,
   (handle_user_query_keyword_precedence [] [] [] "how to pay off my DEBT").1 (by decide)⟩

/-- C6: the posture fallback of `handle_user_query` reads `savings_rate`
from the routing context dict, which never contains that key, so the
rate is always 0 and a keyword-free message from a user with
`total_debt ≤ 10000` always goes to the savings agent — the budget
branch is unreachable even when the user's financial summary carries a
savings rate of 50%.  The debt clause itself works: `total_debt = 15000`
routes to the debt analyzer. -/
theorem handle_general_query_ignores_user_savings_rate :
    handle_user_query [] [("total_debt", 5000), ("savings_rate", 50)] [] "hello"
      = .savings_strategy ∧
    handle_user_query [] [("total_debt", 15000), ("savings_rate", 50)] [] "hello"
      = .debt_analyzer :=
  ⟨by decide, by decide⟩

lemma map_congr_fn {α β : Type} (f g : α → β) (h : ∀ a, f a = g a) :
    ∀ l : List α, l.map f = l.map g
  | [] => rfl
  | a :: l => by simp [h a, map_congr_fn f g h l]

lemma three_deactivations (st : DBState) (u : String) :
    (SupabaseClient.deactivate_old_insights
        (SupabaseClient.deactivate_old_insights
          (SupabaseClient.deactivate_old_insights st u "debt_analyzer")
          u "savings_strategy")
        u "budget_optimizer").insights
      = st.insights.map (deact3 u) := by
  simp only [SupabaseClient.deactivate_old_insights, List.map_map]
  apply map_congr_fn
  intro i
  simp only [Function.comp]
  by_cases hu : i.user_id = u <;>
    by_cases h1 : i.agent_type = "debt_analyzer" <;>
    by_cases h2 : i.agent_type = "savings_strategy" <;>
    by_cases h3 : i.agent_type = "budget_optimizer" <;>
    simp_all [deact3, threeAgentTypes]

lemma refresh_ok_insights (st : DBState) (u : String) (d s b : AnalyzerResult) :
    (refresh_user_analysis st u (.ok d) (.ok s) (.ok b)).1.insights
      = st.insights.map (deact3 u)
        ++ (insightsOf u d ++ insightsOf u s ++ insightsOf u b) := by
  have h1 : (refresh_user_analysis st u (.ok d) (.ok s) (.ok b)).1
      = store_agent_insights
          (SupabaseClient.deactivate_old_insights
            (SupabaseClient.deactivate_old_insights
              (SupabaseClient.deactivate_old_insights st u "debt_analyzer")
              u "savings_strategy")
            u "budget_optimizer") u [d, s, b] := rfl
  rw [h1, store_agent_insights_eq]
  dsimp only
  rw [three_deactivations]
  simp [List.append_assoc]

lemma activeRow_deact3 (u t : String) (ht : t ∈ threeAgentTypes) (i : Insight) :
    activeRow u t (deact3 u i) = false := by
  unfold deact3
  split_ifs with h
  · simp [activeRow]
  · simp only [activeRow, decide_eq_false_iff_not]
    rintro ⟨hu, hty, -⟩
    exact h ⟨hu, by rw [hty]; exact ht⟩

lemma filter_map_deact3 (u t : String) (ht : t ∈ threeAgentTypes) :
    ∀ l : List Insight, (l.map (deact3 u)).filter (activeRow u t) = []
  | [] => rfl
  | i :: l => by
      simp [List.filter_cons, activeRow_deact3 u t ht, filter_map_deact3 u t ht l]

lemma mem_insightsOf_fields (u : String) (a : AnalyzerResult) :
    ∀ i ∈ insightsOf u a,
      i.user_id = u ∧ i.agent_type = a.agent_type ∧ i.is_active = true := by
  intro i hi
  simp only [insightsOf, List.mem_cons, List.mem_map] at hi
  rcases hi with rfl | ⟨r, hr, rfl⟩
  · exact ⟨rfl, rfl, rfl⟩
  · exact ⟨rfl, rfl, rfl⟩

lemma filter_insightsOf_self (u : String) (a : AnalyzerResult) (t : String)
    (h : a.agent_type = t) :
    (insightsOf u a).filter (activeRow u t) = insightsOf u a := by
  rw [List.filter_eq_self]
  intro i hi
  obtain ⟨h1, h2, h3⟩ := mem_insightsOf_fields u a i hi
  exact decide_eq_true ⟨h1, h2.trans h, h3⟩

lemma filter_insightsOf_ne (u : String) (a : AnalyzerResult) (t : String)
    (h : a.agent_type ≠ t) :
    (insightsOf u a).filter (activeRow u t) = [] := by
  rw [List.filter_eq_nil_iff]
  intro i hi
  obtain ⟨h1, h2, h3⟩ := mem_insightsOf_fields u a i hi
  simp only [activeRow, decide_eq_true_eq]
  rintro ⟨-, hty, -⟩
  exact h (h2.symm.trans hty)

/-- C7: two sequential successful `refresh_user_analysis` runs leave
exactly one active generation of insights per agent type: the active
rows of each of the three agent types are exactly the second run's
block for that type, every row present after the first run survives
into the final table (possibly only deactivated, never deleted), every
first-generation row of the user is present deactivated, and the table
only ever grows. -/
theorem refresh_twice_single_active_generation
    (st : DBState) (u : String) (d1 s1 b1 d2 s2 b2 : AnalyzerResult)
    (hd1 : d1.agent_type = "debt_analyzer") (hs1 : s1.agent_type = "savings_strategy")
    (hb1 : b1.agent_type = "budget_optimizer")
    (hd2 : d2.agent_type = "debt_analyzer") (hs2 : s2.agent_type = "savings_strategy")
    (hb2 : b2.agent_type = "budget_optimizer") :
    let stA := (refresh_user_analysis st u (.ok d1) (.ok s1) (.ok b1)).1
    let stB := (refresh_user_analysis stA u (.ok d2) (.ok s2) (.ok b2)).1
    activesFor stB u "debt_analyzer" = insightsOf u d2 ∧
    activesFor stB u "savings_strategy" = insightsOf u s2 ∧
    activesFor stB u "budget_optimizer" = insightsOf u b2 ∧
    (∀ i ∈ stA.insights,
      i ∈ stB.insights ∨ ({ i with is_active := false } : Insight) ∈ stB.insights) ∧
    (∀ i ∈ stA.insights, i.user_id = u → i.agent_type ∈ threeAgentTypes →
      ({ i with is_active := false } : Insight) ∈ stB.insights) ∧
    stA.insights.length = st.insights.length
      + ((insightsOf u d1).length + (insightsOf u s1).length + (insightsOf u b1).length) ∧
    stB.insights.length = stA.insights.length
      + ((insightsOf u d2).length + (insightsOf u s2).length + (insightsOf u b2).length) := by
  intro stA stB
  have hA : stA.insights = st.insights.map (deact3 u)
      ++ (insightsOf u d1 ++ insightsOf u s1 ++ insightsOf u b1) :=
    refresh_ok_insights st u d1 s1 b1
  have hB : stB.insights = stA.insights.map (deact3 u)
      ++ (insightsOf u d2 ++ insightsOf u s2 ++ insightsOf u b2) :=
    refresh_ok_insights stA u d2 s2 b2
  refine ⟨?_, ?_, ?_, ?_, ?_, ?_, ?_⟩
  · show stB.insights.filter (activeRow u "debt_analyzer") = insightsOf u d2
    rw [hB, List.filter_append, filter_map_deact3 u "debt_analyzer" (by decide),
      List.filter_append, List.filter_append,
      filter_insightsOf_self u d2 _ hd2,
      filter_insightsOf_ne u s2 _ (by rw [hs2]; decide),
      filter_insightsOf_ne u b2 _ (by rw [hb2]; decide)]
    simp
  · show stB.insights.filter (activeRow u "savings_strategy") = insightsOf u s2
    rw [hB, List.filter_append, filter_map_deact3 u "savings_strategy" (by decide),
      List.filter_append, List.filter_append,
      filter_insightsOf_ne u d2 _ (by rw [hd2]; decide),
      filter_insightsOf_self u s2 _ hs2,
      filter_insightsOf_ne u b2 _ (by rw [hb2]; decide)]
    simp
  · show stB.insights.filter (activeRow u "budget_optimizer") = insightsOf u b2
    rw [hB, List.filter_append, filter_map_deact3 u "budget_optimizer" (by decide),
      List.filter_append, List.filter_append,
      filter_insightsOf_ne u d2 _ (by rw [hd2]; decide),
      filter_insightsOf_ne u s2 _ (by rw [hs2]; decide),
      filter_insightsOf_self u b2 _ hb2]
    simp
  · intro i hi
    by_cases h : i.user_id = u ∧ i.agent_type ∈ threeAgentTypes
    · right
      rw [hB]
      apply List.mem_append_left
      have hd : deact3 u i = { i with is_active := false } := by
        unfold deact3; rw [if_pos h]
      rw [← hd]
      exact List.mem_map_of_mem _ hi
    · left
      rw [hB]
      apply List.mem_append_left
      have hd : deact3 u i = i := by
        unfold deact3; rw [if_neg h]
      rw [← hd]
      exact List.mem_map_of_mem _ hi
  · intro i hi hu hty
    rw [hB]
    apply List.mem_append_left
    have hd : deact3 u i = { i with is_active := false } := by
      unfold deact3; rw [if_pos ⟨hu, hty⟩]
    rw [← hd]
    exact List.mem_map_of_mem _ hi
  · rw [hA]
    simp [List.length_append, List.length_map]
    omega
  · rw [hB]
    simp [List.length_append, List.length_map]
    omega

/-- Witness for C7: two refreshes on the sample store leave the second
run's debt block as the only active debt-analyzer insights. -/
theorem refresh_twice_single_active_generation_witness :
    activesFor (refresh_user_analysis
        (refresh_user_analysis sampleDB "u1"
          (.ok (DebtAnalyzerAgent.analyze "w" [])) (.ok (SavingsStrategyAgent.analyze "w" []))
          (.ok (BudgetOptimizerAgent.analyze "w" []))).1 "u1"
        (.ok (DebtAnalyzerAgent.analyze "w2" [])) (.ok (SavingsStrategyAgent.analyze "w2" []))
        (.ok (BudgetOptimizerAgent.analyze "w2" []))).1 "u1" "debt_analyzer"
      = insightsOf "u1" (DebtAnalyzerAgent.analyze "w2" []) :=
  (refresh_twice_single_active_generation sampleDB "u1"
      (DebtAnalyzerAgent.analyze "w" []) (SavingsStrategyAgent.analyze "w" [])
      (BudgetOptimizerAgent.analyze "w" []) (DebtAnalyzerAgent.analyze "w2" [])
      (SavingsStrategyAgent.analyze "w2" []) (BudgetOptimizerAgent.analyze "w2" [])
      rfl rfl rfl rfl rfl rfl).1

end AgentOrchestrator

/-- C3: each analyzer's priority score is the pure deterministic
function of the documented threshold ladder — debt: ratio over 40% gives
10, bands (30,40] → 8 (so exactly 40% gives 8), (20,30] → 6, positive
debt below 20% → 4, no debt → 1; budget (for positive income): expense
ratio ≥ 100% gives 10, then ≥ 95%, ≥ 85%, ≥ 70% give 8, 6, 4, and below
70% gives 2, boundaries inclusive on the lower bound; savings:
emergency-fund gap over 10000 gives 9, else rate < 10 gives 7, rate <
20 gives 5, else 3. -/
theorem priority_scores_follow_ladder (fd : List FinancialRecord) (narr : String) :
    ((DebtAnalyzerAgent.debt_to_income fd > 40 →
        (DebtAnalyzerAgent.analyze narr fd).priority_score = 10) ∧
     (30 < DebtAnalyzerAgent.debt_to_income fd → DebtAnalyzerAgent.debt_to_income fd ≤ 40 →
        (DebtAnalyzerAgent.analyze narr fd).priority_score = 8) ∧
     (20 < DebtAnalyzerAgent.debt_to_income fd → DebtAnalyzerAgent.debt_to_income fd ≤ 30 →
        (DebtAnalyzerAgent.analyze narr fd).priority_score = 6) ∧
     (0 < DebtAnalyzerAgent.total_debt fd → DebtAnalyzerAgent.debt_to_income fd < 20 →
        (DebtAnalyzerAgent.analyze narr fd).priority_score = 4) ∧
     (DebtAnalyzerAgent.total_debt fd = 0 →
        (DebtAnalyzerAgent.analyze narr fd).priority_score = 1)) ∧
    (BudgetOptimizerAgent.total_income fd > 0 →
      ((BudgetOptimizerAgent.total_expenses fd / BudgetOptimizerAgent.total_income fd * 100 ≥ 100 →
          (BudgetOptimizerAgent.analyze narr fd).priority_score = 10) ∧
       (95 ≤ BudgetOptimizerAgent.total_expenses fd / BudgetOptimizerAgent.total_income fd * 100 →
          BudgetOptimizerAgent.total_expenses fd / BudgetOptimizerAgent.total_income fd * 100 < 100 →
          (BudgetOptimizerAgent.analyze narr fd).priority_score = 8) ∧
       (85 ≤ BudgetOptimizerAgent.total_expenses fd / BudgetOptimizerAgent.total_income fd * 100 →
          BudgetOptimizerAgent.total_expenses fd / BudgetOptimizerAgent.total_income fd * 100 < 95 →
          (BudgetOptimizerAgent.analyze narr fd).priority_score = 6) ∧
       (70 ≤ BudgetOptimizerAgent.total_expenses fd / BudgetOptimizerAgent.total_income fd * 100 →
          BudgetOptimizerAgent.total_expenses fd / BudgetOptimizerAgent.total_income fd * 100 < 85 →
          (BudgetOptimizerAgent.analyze narr fd).priority_score = 4) ∧
       (BudgetOptimizerAgent.total_expenses fd / BudgetOptimizerAgent.total_income fd * 100 < 70 →
          (BudgetOptimizerAgent.analyze narr fd).priority_score = 2))) ∧
    ((SavingsStrategyAgent.emergency_fund_gap fd > 10000 →
        (SavingsStrategyAgent.analyze narr fd).priority_score = 9) ∧
     (SavingsStrategyAgent.emergency_fund_gap fd ≤ 10000 →
        SavingsStrategyAgent.savings_rate fd < 10 →
        (SavingsStrategyAgent.analyze narr fd).priority_score = 7) ∧
     (SavingsStrategyAgent.emergency_fund_gap fd ≤ 10000 →
        10 ≤ SavingsStrategyAgent.savings_rate fd → SavingsStrategyAgent.savings_rate fd < 20 →
        (SavingsStrategyAgent.analyze narr fd).priority_score = 5) ∧
     (SavingsStrategyAgent.emergency_fund_gap fd ≤ 10000 →
        20 ≤ SavingsStrategyAgent.savings_rate fd →
        (SavingsStrategyAgent.analyze narr fd).priority_score = 3)) := by
  refine ⟨⟨?_, ?_, ?_, ?_, ?_⟩, ?_, ⟨?_, ?_, ?_, ?_⟩⟩
  · intro h
    show DebtAnalyzerAgent.calculate_debt_priority _ _ = 10
    unfold DebtAnalyzerAgent.calculate_debt_priority
    split_ifs <;> first | rfl | (exfalso; linarith)
  · intro h1 h2
    show DebtAnalyzerAgent.calculate_debt_priority _ _ = 8
    unfold DebtAnalyzerAgent.calculate_debt_priority
    split_ifs <;> first | rfl | (exfalso; linarith)
  · intro h1 h2
    show DebtAnalyzerAgent.calculate_debt_priority _ _ = 6
    unfold DebtAnalyzerAgent.calculate_debt_priority
    split_ifs <;> first | rfl | (exfalso; linarith)
  · intro h1 h2
    show DebtAnalyzerAgent.calculate_debt_priority _ _ = 4
    unfold DebtAnalyzerAgent.calculate_debt_priority
    split_ifs <;> first | rfl | (exfalso; linarith)
  · intro h
    have hdti : DebtAnalyzerAgent.debt_to_income fd = 0 := by
      unfold DebtAnalyzerAgent.debt_to_income
      rw [h]
      split_ifs <;> simp
    show DebtAnalyzerAgent.calculate_debt_priority _ _ = 1
    unfold DebtAnalyzerAgent.calculate_debt_priority
    rw [hdti, h]
    norm_num
  · intro hti
    have hmi : BudgetOptimizerAgent.monthly_income fd > 0 := by
      unfold BudgetOptimizerAgent.monthly_income
      positivity
    have hr : BudgetOptimizerAgent.monthly_expenses fd / BudgetOptimizerAgent.monthly_income fd
        = BudgetOptimizerAgent.total_expenses fd / BudgetOptimizerAgent.total_income fd := by
      have hne : BudgetOptimizerAgent.total_income fd ≠ 0 := ne_of_gt hti
      unfold BudgetOptimizerAgent.monthly_expenses BudgetOptimizerAgent.monthly_income
      field_simp
    refine ⟨?_, ?_, ?_, ?_, ?_⟩ <;> intros <;>
      · show BudgetOptimizerAgent.calculate_budget_priority _ _ = _
        simp only [BudgetOptimizerAgent.calculate_budget_priority, if_pos hmi, hr]
        split_ifs <;> first | rfl | (exfalso; linarith)
  · intro h
    show SavingsStrategyAgent.calculate_savings_priority _ _ = 9
    unfold SavingsStrategyAgent.calculate_savings_priority
    split_ifs <;> first | rfl | (exfalso; linarith)
  · intro h1 h2
    show SavingsStrategyAgent.calculate_savings_priority _ _ = 7
    unfold SavingsStrategyAgent.calculate_savings_priority
    split_ifs <;> first | rfl | (exfalso; linarith)
  · intro h1 h2 h3
    show SavingsStrategyAgent.calculate_savings_priority _ _ = 5
    unfold SavingsStrategyAgent.calculate_savings_priority
    split_ifs <;> first | rfl | (exfalso; linarith)
  · intro h1 h2
    show SavingsStrategyAgent.calculate_savings_priority _ _ = 3
    unfold SavingsStrategyAgent.calculate_savings_priority
    split_ifs <;> first | rfl | (exfalso; linarith)

/-- Witness for C3: with no records there is no debt, and the debt
priority score is the minimal 1. -/
theorem priority_scores_follow_ladder_witness :
    DebtAnalyzerAgent.total_debt [] = 0 ∧
    (DebtAnalyzerAgent.analyze "" []).priority_score = 1 :=
  ⟨rfl, (priority_scores_follow_ladder [] "").1.2.2.2.2 rfl⟩

/-- C4: on any record set whose total income is 0, every guarded ratio
metric of the three analyzers is 0 rather than a division fault: the
debt-to-income ratio, the savings rate, the emergency-fund progress
when its target is 0, the expense ratio, and every per-category expense
percentage. -/
theorem zero_income_ratios_vanish (fd : List FinancialRecord) (narr : String)
    (h : sumAmounts (fd.filter (fun r => r.data_type = "income")) = 0) :
    Metrics.getNum (DebtAnalyzerAgent.analyze narr fd).metrics "debt_to_income_ratio" 0 = 0 ∧
    Metrics.getNum (SavingsStrategyAgent.analyze narr fd).metrics "savings_rate" 0 = 0 ∧
    (SavingsStrategyAgent.emergency_fund_target fd = 0 →
      Metrics.getNum (SavingsStrategyAgent.analyze narr fd).metrics
        "emergency_fund_progress" 0 = 0) ∧
    Metrics.getNum (BudgetOptimizerAgent.analyze narr fd).metrics "expense_ratio" 0 = 0 ∧
    (∀ p ∈ BudgetOptimizerAgent.expense_percentages fd, p.2 = 0) := by
  have hd : DebtAnalyzerAgent.total_income fd = 0 := h
  have hs : SavingsStrategyAgent.total_income fd = 0 := h
  have hb : BudgetOptimizerAgent.total_income fd = 0 := h
  have hsm : SavingsStrategyAgent.monthly_income fd = 0 := by
    unfold SavingsStrategyAgent.monthly_income
    rw [hs]
    norm_num
  have hbm : BudgetOptimizerAgent.monthly_income fd = 0 := by
    unfold BudgetOptimizerAgent.monthly_income
    rw [hb]
    norm_num
  refine ⟨?_, ?_, ?_, ?_, ?_⟩
  · simp [DebtAnalyzerAgent.analyze, Metrics.getNum, DebtAnalyzerAgent.debt_to_income, hd]
  · simp [SavingsStrategyAgent.analyze, Metrics.getNum, SavingsStrategyAgent.savings_rate, hsm]
  · intro ht
    simp [SavingsStrategyAgent.analyze, Metrics.getNum, ht]
  · simp [BudgetOptimizerAgent.analyze, Metrics.getNum, hbm]
  · intro p hp
    simp only [BudgetOptimizerAgent.expense_percentages, List.mem_map] at hp
    obtain ⟨q, hq, rfl⟩ := hp
    simp [hb]

/-- Witness for C4: a record set with one expense and no income. -/
theorem zero_income_ratios_vanish_witness :
    sumAmounts (expenseOnlyRecords.filter (fun r => r.data_type = "income")) = 0 ∧
    Metrics.getNum (DebtAnalyzerAgent.analyze "" expenseOnlyRecords).metrics
      "debt_to_income_ratio" 0 = 0 ∧
    Metrics.getNum (BudgetOptimizerAgent.analyze "" expenseOnlyRecords).metrics
      "expense_ratio" 0 = 0 :=
  ⟨rfl, (zero_income_ratios_vanish expenseOnlyRecords "" rfl).1,
   (zero_income_ratios_vanish expenseOnlyRecords "" rfl).2.2.2.1⟩

/-- C10: on any record set with total income 0, the budget analyzer's
priority score is 10 — inside `_calculate_budget_priority` the undefined
expense ratio defaults to 1 (at least 100% of income spent) — while the
`expense_ratio` metric reported in the same result defaults to 0. -/
theorem budget_priority_ten_on_zero_income (fd : List FinancialRecord) (narr : String)
    (h : sumAmounts (fd.filter (fun r => r.data_type = "income")) = 0) :
    (BudgetOptimizerAgent.analyze narr fd).priority_score = 10 ∧
    Metrics.getNum (BudgetOptimizerAgent.analyze narr fd).metrics "expense_ratio" 0 = 0 := by
  have hb : BudgetOptimizerAgent.total_income fd = 0 := h
  have hbm : BudgetOptimizerAgent.monthly_income fd = 0 := by
    unfold BudgetOptimizerAgent.monthly_income
    rw [hb]
    norm_num
  constructor
  · show BudgetOptimizerAgent.calculate_budget_priority _ _ = 10
    simp [BudgetOptimizerAgent.calculate_budget_priority, hbm]
  · simp [BudgetOptimizerAgent.analyze, Metrics.getNum, hbm]

/-- Witness for C10: the same expense-only record set as in C4. -/
theorem budget_priority_ten_on_zero_income_witness :
    sumAmounts (expenseOnlyRecords.filter (fun r => r.data_type = "income")) = 0 ∧
    (BudgetOptimizerAgent.analyze "" expenseOnlyRecords).priority_score = 10 :=
  ⟨rfl, (budget_priority_ten_on_zero_income expenseOnlyRecords "" rfl).1⟩

end RupAI
